import Mathlib

/-
Verification of the decision/fusion pipeline of the AgriCLIP model service
(src/agriclip_service/main.py).  The two pretrained model collaborators
(object detector, image classifier) are opaque: the detector's output is a
list of detections passed in as data, and the classifier is an oracle
function from the region index (regions are classified serially, in
emission order) to a classification result.  Everything downstream of the
collaborators — region extraction and clamping, best-region selection,
domain estimation, affected-area and severity computation, disease
decision, narrative and recommendations, report assembly — is translated
here definition by definition from the source.

Numeric conventions: Python floats are modelled as rationals; Python
`int(·)` on a float truncates toward zero (`pyTrunc`); Python 3 `round`
rounds half to even (`pyRound`); `/` on integers is true division into ℚ.
-/

namespace AgriClip

/-- A raw bounding box as produced by the detector, in float pixel
coordinates; may lie outside the image and need not be ordered. -/
structure RawBox where
  x1 : ℚ
  y1 : ℚ
  x2 : ℚ
  y2 : ℚ
  deriving DecidableEq, Repr, Inhabited

/-- One detection from the Detection Collaborator
(`detect_objects`): label, confidence, box. -/
structure Detection where
  label : String
  confidence : ℚ
  box : RawBox
  deriving DecidableEq, Repr, Inhabited

/-- A clamped integer box, as built in `classify` before cropping. -/
structure Box where
  x1 : ℤ
  y1 : ℤ
  x2 : ℤ
  y2 : ℤ
  deriving DecidableEq, Repr, Inhabited

/-- Output of the Classification Collaborator (`classify_crop`). -/
structure ClassificationResult where
  label : String
  confidence : ℚ
  top3 : List (String × ℚ)
  deriving DecidableEq, Repr, Inhabited

/-- An entry of `classified_regions` in `classify`: a region's box paired
with its classification. -/
structure ClassifiedRegion where
  label : String
  confidence : ℚ
  top3 : List (String × ℚ)
  box : Box
  deriving DecidableEq, Repr, Inhabited

/-- The `data.classification` object of the response. -/
structure ClassificationReport where
  diseaseDetected : Bool
  diseaseName : String
  confidence : ℤ
  severity : Option String
  affectedArea : Option ℤ
  recommendations : List String
  model : String
  deriving DecidableEq, Repr, Inhabited

/-- The `data` object of the response assembled by `classify`
(processingTime, wall-clock, is not modelled). -/
structure AnalysisResult where
  classification : ClassificationReport
  report : String
  detections : List Detection
  regions : List ClassifiedRegion
  deriving DecidableEq, Repr, Inhabited

/-- Python `int(q)` on a float: truncation toward zero. -/
def pyTrunc (q : ℚ) : ℤ := Int.tdiv q.num (q.den : ℤ)

/-- Floor of a rational, computed directly (denominator is positive). -/
def ratFloor (q : ℚ) : ℤ := Int.fdiv q.num (q.den : ℤ)

/-- Python 3 `round(q)`: round half to even. -/
def pyRound (q : ℚ) : ℤ :=
  let f := ratFloor q
  let r := q - (f : ℚ)
  if r < 1/2 then f
  else if 1/2 < r then f + 1
  else if f % 2 = 0 then f else f + 1

/-- `leadsWith tok l` is true when `tok` is an initial segment of `l`. -/
def leadsWith : List Char → List Char → Bool
  | [], _ => true
  | _ :: _, [] => false
  | a :: as, b :: bs => a == b && leadsWith as bs

/-- `hasInfix tok l` is true when `tok` occurs contiguously in `l`. -/
def hasInfix (tok : List Char) : List Char → Bool
  | [] => tok.isEmpty
  | c :: rest => leadsWith tok (c :: rest) || hasInfix tok rest

/-- Python's `tok in s` substring test. -/
def strContains (s tok : String) : Bool := hasInfix tok.data s.data

/-- Python's `str.lower()` (ASCII labels only in this service). -/
def lowerStr (s : String) : String := ⟨s.data.map Char.toLower⟩

/-- `animal_tokens` in `estimate_domain`. -/
def animal_tokens : List String :=
  ["cow", "sheep", "horse", "dog", "cat", "bird", "zebra", "giraffe", "bear"]

/-- `plant_tokens` in `estimate_domain`. -/
def plant_tokens : List String := ["potted plant", "plant"]

/-- `fish_tokens` in `estimate_domain`; assigned in the source but never
read (the fish branch uses the substring list below instead). -/
def fish_tokens : List String := ["fish", "shark", "ray"]

/-- Fish substring tokens tested against the classifier label. -/
def fish_label_tokens : List String :=
  ["shark", "ray", "tench", "goldfish", "salmon", "trout", "tilapia", "cod", "mackerel"]

/-- Plant substring tokens tested against the classifier label. -/
def plant_label_tokens : List String :=
  ["leaf", "plant", "tomato", "potato", "maize", "corn", "wheat", "rice"]

/-- Livestock substring tokens tested against the classifier label. -/
def livestock_label_tokens : List String :=
  ["cow", "sheep", "horse", "cat", "dog", "tiger", "lion"]

/-- `estimate_domain(detections, cls_label)`: detection-label set rules
first, then classifier-label substring rules, default plant. -/
def estimate_domain (detections : List Detection) (cls_label : String) : String :=
  let labels := detections.map (fun d => lowerStr d.label)
  if labels.any (fun l => animal_tokens.contains l) then "livestock"
  else if labels.any (fun l => plant_tokens.contains l) then "plant"
  else
    let lower := lowerStr cls_label
    if fish_label_tokens.any (fun tok => strContains lower tok) then "fish"
    else if plant_label_tokens.any (fun tok => strContains lower tok) then "plant"
    else if livestock_label_tokens.any (fun tok => strContains lower tok) then "livestock"
    else "plant"

/-- The disease tokens checked by `make_narrative` (note: this list, in
the source, omits "mold"). -/
def narrative_disease_tokens : List String :=
  ["blight", "mildew", "rust", "fungus", "spot"]

/-- `make_narrative(domain, cls_label, cls_conf, detections)`; the
`detections` argument is accepted but unused, as in the source. -/
def make_narrative (domain cls_label : String) (cls_conf : ℚ)
    (detections : List Detection) : String :=
  let pct := pyRound (cls_conf * 100)
  if domain = "plant" then
    if narrative_disease_tokens.any (fun tok => strContains (lowerStr cls_label) tok) then
      "This plant shows signs of " ++ cls_label ++ ". Confidence " ++ toString pct ++
        "%. Consider isolating the affected area and applying appropriate treatment."
    else
      "This appears to be a healthy plant or foliage (" ++ cls_label ++ "). Confidence " ++
        toString pct ++ "%."
  else if domain = "livestock" then
    "This looks like " ++ cls_label ++ ". Confidence " ++ toString pct ++
      "%. The animal appears healthy."
  else if domain = "fish" then
    "This appears to be a " ++ cls_label ++ ". Confidence " ++ toString pct ++
      "%. The fish looks healthy."
  else
    "Detected subject classified as " ++ cls_label ++ " with " ++ toString pct ++
      "% confidence."

/-- The clamp applied per detection in `classify`:
`x1 = max(0, int(x1)); y1 = max(0, int(y1)); x2 = min(width, int(x2));
y2 = min(height, int(y2))`. -/
def clampBox (width height : ℕ) (b : RawBox) : Box :=
  { x1 := max 0 (pyTrunc b.x1)
    y1 := max 0 (pyTrunc b.y1)
    x2 := min (width : ℤ) (pyTrunc b.x2)
    y2 := min (height : ℤ) (pyTrunc b.y2) }

/-- `boxes_for_regions` in `classify`: one clamped box per detection, or
the whole image when the detection list is empty. -/
def regionBoxes (width height : ℕ) (detections : List Detection) : List Box :=
  match detections with
  | [] => [{ x1 := 0, y1 := 0, x2 := (width : ℤ), y2 := (height : ℤ) }]
  | _ => detections.map (fun d => clampBox width height d.box)

/-- `classified_regions` in `classify`: each region's box paired with the
classifier's result for that region (the oracle receives the region
index, reflecting the serial classification of regions in order). -/
def classifiedRegions (width height : ℕ) (detections : List Detection)
    (oracle : ℕ → ClassificationResult) : List ClassifiedRegion :=
  (regionBoxes width height detections).enum.map (fun p =>
    { label := (oracle p.1).label
      confidence := (oracle p.1).confidence
      top3 := (oracle p.1).top3
      box := p.2 })

/-- The best-region loop of `classify`: running index, best index so far,
best confidence so far (initialised to 0 and -1.0); a region is taken
only when its confidence strictly exceeds the best so far. -/
def bestLoop : List ℚ → ℕ → ℕ → ℚ → ℕ × ℚ
  | [], _, best_idx, best_conf => (best_idx, best_conf)
  | c :: rest, i, best_idx, best_conf =>
    if best_conf < c then bestLoop rest (i + 1) i c
    else bestLoop rest (i + 1) best_idx best_conf

/-- `(best_idx, best_conf)` after the loop, from the confidence list. -/
def bestPair (confs : List ℚ) : ℕ × ℚ := bestLoop confs 0 0 (-1)

/-- The confidences of the classified regions, in emission order. -/
def confidences (width height : ℕ) (detections : List Detection)
    (oracle : ℕ → ClassificationResult) : List ℚ :=
  (classifiedRegions width height detections oracle).map (fun r => r.confidence)

/-- `best_idx` after the selection loop in `classify`. -/
def best_idx (width height : ℕ) (detections : List Detection)
    (oracle : ℕ → ClassificationResult) : ℕ :=
  (bestPair (confidences width height detections oracle)).1

/-- `best_conf` after the selection loop in `classify`. -/
def best_conf (width height : ℕ) (detections : List Detection)
    (oracle : ℕ → ClassificationResult) : ℚ :=
  (bestPair (confidences width height detections oracle)).2

/-- `primary_label` in `classify`: the label of the best region. -/
def primary_label (width height : ℕ) (detections : List Detection)
    (oracle : ℕ → ClassificationResult) : String :=
  ((classifiedRegions width height detections oracle).getD
    (best_idx width height detections oracle) default).label

/-- The resolved domain: `imageDomain or estimate_domain(...)` — a `None`
or empty-string override falls through to the estimator, any other
string is used verbatim. -/
def resolvedDomain (width height : ℕ) (detections : List Detection)
    (oracle : ℕ → ClassificationResult) (imageDomain : Option String) : String :=
  match imageDomain with
  | some s =>
    if s = "" then estimate_domain detections (primary_label width height detections oracle)
    else s
  | none => estimate_domain detections (primary_label width height detections oracle)

/-- `disease_tokens` in `classify` (six tokens, including "mold"). -/
def disease_tokens : List String :=
  ["blight", "mildew", "rust", "fungus", "spot", "mold"]

/-- The body of the `/classify` endpoint after the collaborator calls:
region extraction, best-region selection, domain resolution, affected
area, severity, disease decision, narrative, recommendations, assembly. -/
def classify (width height : ℕ) (detections : List Detection)
    (oracle : ℕ → ClassificationResult) (imageDomain : Option String) : AnalysisResult :=
  let boxes_for_regions := regionBoxes width height detections
  let classified_regions := classifiedRegions width height detections oracle
  let bc := best_conf width height detections oracle
  let primary := primary_label width height detections oracle
  let domain := resolvedDomain width height detections oracle imageDomain
  let affected_area_pct : Option ℤ :=
    if domain = "plant" then
      let total_area : ℤ := (width : ℤ) * (height : ℤ)
      let region_area : ℤ :=
        (boxes_for_regions.map (fun b => max 0 (b.x2 - b.x1) * max 0 (b.y2 - b.y1))).sum
      if 0 < total_area then
        some (pyRound (((100 * region_area : ℤ) : ℚ) / ((total_area : ℤ) : ℚ)))
      else none
    else none
  let severity : Option String :=
    if domain = "plant" then
      some (if 0.8 ≤ bc then "high" else if 0.6 ≤ bc then "medium" else "low")
    else none
  let disease_detected : Bool :=
    if domain = "plant" then
      disease_tokens.any (fun tok => strContains (lowerStr primary) tok)
    else false
  let disease_name : String :=
    if disease_detected then primary
    else if domain ≠ "plant" then primary else "Healthy"
  let narrative := make_narrative domain primary bc detections
  let recommendations : List String :=
    if domain = "plant" then
      if disease_detected then
        ["Isolate affected leaves to reduce spread.",
         "Apply appropriate fungicide as per local guidance.",
         "Ensure proper airflow and avoid overhead watering."]
      else
        ["Maintain regular watering and balanced fertilization.",
         "Monitor for any spots or discoloration."]
    else if domain = "livestock" then
      ["Provide clean water and balanced feed.",
       "Monitor for signs of distress or illness."]
    else if domain = "fish" then
      ["Maintain optimal water quality and temperature.",
       "Monitor for abnormal swimming or spots."]
    else []
  { classification :=
      { diseaseDetected := disease_detected
        diseaseName := disease_name
        confidence := pyRound (bc * 100)
        severity := severity
        affectedArea := affected_area_pct
        recommendations := recommendations
        model := "agriclip-yolov8-efficientnet-b3" }
    report := narrative
    detections := detections
    regions := classified_regions }

/-- The unconditional part of the clamping guarantee. -/
abbrev BoxLoose (w h : ℕ) (b : Box) : Prop :=
  0 ≤ b.x1 ∧ 0 ≤ b.y1 ∧ b.x2 ≤ (w : ℤ) ∧ b.y2 ≤ (h : ℤ)

/-- The full ordering chain claimed by the spec for clamped boxes. -/
abbrev BoxWithin (w h : ℕ) (b : Box) : Prop :=
  0 ≤ b.x1 ∧ b.x1 ≤ b.x2 ∧ b.x2 ≤ (w : ℤ) ∧
    0 ≤ b.y1 ∧ b.y1 ≤ b.y2 ∧ b.y2 ≤ (h : ℤ)

/-- A raw box whose truncated coordinates are ordered and meet the image
bounds on both axes. -/
abbrev RawBoxInImage (w h : ℕ) (rb : RawBox) : Prop :=
  pyTrunc rb.x1 ≤ pyTrunc rb.x2 ∧ 0 ≤ pyTrunc rb.x2 ∧ pyTrunc rb.x1 ≤ (w : ℤ) ∧
    pyTrunc rb.y1 ≤ pyTrunc rb.y2 ∧ 0 ≤ pyTrunc rb.y2 ∧ pyTrunc rb.y1 ≤ (h : ℤ)

/-- A constant classification oracle. -/
def mkOracle (lbl : String) (c : ℚ) : ℕ → ClassificationResult :=
  fun _ => { label := lbl, confidence := c, top3 := [] }

/-- A detection whose box lies entirely outside a 100 by 100 image. -/
def d_out : Detection :=
  { label := "person", confidence := 1/2
    box := { x1 := 150, y1 := 150, x2 := 200, y2 := 200 } }

/-- A detection with a well-formed in-bounds box. -/
def d_in : Detection :=
  { label := "person", confidence := 1/2
    box := { x1 := 5, y1 := 5, x2 := 50, y2 := 50 } }

/-- A 10 by 10 detection box at the origin. -/
def d_a : Detection :=
  { label := "person", confidence := 9/10
    box := { x1 := 0, y1 := 0, x2 := 10, y2 := 10 } }

/-- A 10 by 10 detection box away from the origin. -/
def d_b : Detection :=
  { label := "person", confidence := 9/10
    box := { x1 := 20, y1 := 20, x2 := 30, y2 := 30 } }

/-- A detection labelled "cow". -/
def d_cow : Detection :=
  { label := "cow", confidence := 9/10
    box := { x1 := 0, y1 := 0, x2 := 10, y2 := 10 } }

/-- A detection labelled "potted plant". -/
def d_plant : Detection :=
  { label := "potted plant", confidence := 9/10
    box := { x1 := 0, y1 := 0, x2 := 10, y2 := 10 } }

/-- An oracle yielding region confidences 0.3, 0.9, 0.9, ... . -/
def oracle399 : ℕ → ClassificationResult :=
  fun i => if i = 0 then { label := "leaf", confidence := 3/10, top3 := [] }
           else { label := "leaf", confidence := 9/10, top3 := [] }

attribute [local semireducible] Rat.mul Rat.inv Rat.add Rat.sub Rat.ofScientific

theorem getD_append_lt (l l' : List ℚ) (j : ℕ) (d : ℚ) (h : j < l.length) :
    (l ++ l').getD j d = l.getD j d := by
  induction l generalizing j with
  | nil => simp at h
  | cons a t ih =>
    cases j with
    | zero => rfl
    | succ j => exact ih j (by simpa using h)

theorem getD_snoc_length (l : List ℚ) (c d : ℚ) : (l ++ [c]).getD l.length d = c := by
  induction l with
  | nil => rfl
  | cons a t ih => exact ih

/-- Loop invariant for the best-region selection loop: if the state
`(bi, bc)` records the first maximum of the processed prefix `l`, then
running the loop over the remaining confidences extends this to the
whole list. -/
theorem bestLoop_inv (rest : List ℚ) :
    ∀ (l : List ℚ) (bi : ℕ) (bc : ℚ),
      bi < l.length →
      l.getD bi 0 = bc →
      (∀ j, j < l.length → l.getD j 0 ≤ bc) →
      (∀ j, j < bi → l.getD j 0 < bc) →
      (bestLoop rest l.length bi bc).1 < (l ++ rest).length ∧
      (l ++ rest).getD (bestLoop rest l.length bi bc).1 0 = (bestLoop rest l.length bi bc).2 ∧
      (∀ j, j < (l ++ rest).length →
        (l ++ rest).getD j 0 ≤ (bestLoop rest l.length bi bc).2) ∧
      (∀ j, j < (bestLoop rest l.length bi bc).1 →
        (l ++ rest).getD j 0 < (bestLoop rest l.length bi bc).2) := by
  induction rest with
  | nil =>
    intro l bi bc h1 h2 h3 h4
    simp only [bestLoop, List.append_nil]
    exact ⟨h1, h2, h3, h4⟩
  | cons c rest ih =>
    intro l bi bc h1 h2 h3 h4
    by_cases hc : bc < c
    · have hstep : bestLoop (c :: rest) l.length bi bc = bestLoop rest (l.length + 1) l.length c := by
        simp [bestLoop, hc]
      have key := ih (l ++ [c]) l.length c
        (by simp)
        (getD_snoc_length l c 0)
        (by
          intro j hj
          rcases Nat.lt_succ_iff_lt_or_eq.mp (by simpa using hj) with hj' | hj'
          · rw [getD_append_lt _ _ _ _ hj']
            exact le_of_lt (lt_of_le_of_lt (h3 j hj') hc)
          · subst hj'
            rw [getD_snoc_length])
        (by
          intro j hj
          rw [getD_append_lt _ _ _ _ hj]
          exact lt_of_le_of_lt (h3 j hj) hc)
      have hlen : (l ++ [c]).length = l.length + 1 := by simp
      rw [hlen, List.append_assoc, List.singleton_append] at key
      rw [hstep]
      exact key
    · have hle : c ≤ bc := not_lt.mp hc
      have hstep : bestLoop (c :: rest) l.length bi bc = bestLoop rest (l.length + 1) bi bc := by
        simp [bestLoop, hc]
      have key := ih (l ++ [c]) bi bc
        (by simp; omega)
        (by rw [getD_append_lt _ _ _ _ h1]; exact h2)
        (by
          intro j hj
          rcases Nat.lt_succ_iff_lt_or_eq.mp (by simpa using hj) with hj' | hj'
          · rw [getD_append_lt _ _ _ _ hj']
            exact h3 j hj'
          · subst hj'
            rw [getD_snoc_length]
            exact hle)
        (by
          intro j hj
          rw [getD_append_lt _ _ _ _ (lt_trans hj h1)]
          exact h4 j hj)
      have hlen : (l ++ [c]).length = l.length + 1 := by simp
      rw [hlen, List.append_assoc, List.singleton_append] at key
      rw [hstep]
      exact key

/-- On a nonempty list of nonnegative confidences, the selection loop
returns an in-range index whose value is the maximum, and every earlier
index holds a strictly smaller value. -/
theorem bestPair_spec (confs : List ℚ) (hne : confs ≠ [])
    (h0 : ∀ x ∈ confs, 0 ≤ x) :
    (bestPair confs).1 < confs.length ∧
    confs.getD (bestPair confs).1 0 = (bestPair confs).2 ∧
    (∀ j, j < confs.length → confs.getD j 0 ≤ (bestPair confs).2) ∧
    (∀ j, j < (bestPair confs).1 → confs.getD j 0 < (bestPair confs).2) := by
  match confs, hne with
  | c :: rest, _ =>
    have hc : (-1 : ℚ) < c :=
      lt_of_lt_of_le (by norm_num) (h0 c (List.mem_cons_self c rest))
    have hstep : bestPair (c :: rest) = bestLoop rest 1 0 c := by
      simp [bestPair, bestLoop, hc]
    have key := bestLoop_inv rest [c] 0 c (by simp) rfl
      (by
        intro j hj
        have hj0 : j = 0 := Nat.lt_one_iff.mp hj
        subst hj0
        simp)
      (by
        intro j hj
        exact absurd hj (Nat.not_lt_zero j))
    rw [hstep]
    simp only [List.singleton_append, List.length_singleton] at key
    exact key

theorem confidences_length (w h : ℕ) (dets : List Detection)
    (oracle : ℕ → ClassificationResult) :
    (confidences w h dets oracle).length = (regionBoxes w h dets).length := by
  simp [confidences, classifiedRegions]

theorem regionBoxes_ne_nil (w h : ℕ) (dets : List Detection) :
    regionBoxes w h dets ≠ [] := by
  cases dets <;> simp [regionBoxes]

theorem confidences_ne_nil (w h : ℕ) (dets : List Detection)
    (oracle : ℕ → ClassificationResult) :
    confidences w h dets oracle ≠ [] := by
  intro hnil
  have h1 := confidences_length w h dets oracle
  rw [hnil] at h1
  exact regionBoxes_ne_nil w h dets (List.length_eq_zero.mp h1.symm)

theorem confidences_nonneg (w h : ℕ) (dets : List Detection)
    (oracle : ℕ → ClassificationResult)
    (hnn : ∀ i, 0 ≤ (oracle i).confidence) :
    ∀ x ∈ confidences w h dets oracle, 0 ≤ x := by
  intro x hx
  simp only [confidences, classifiedRegions] at hx
  rcases List.mem_map.mp hx with ⟨r, hr, rfl⟩
  rcases List.mem_map.mp hr with ⟨p, _, rfl⟩
  exact hnn p.1

/-- Claim C2 (amended): for the plant domain the narrative is the disease
template exactly when the label, lowercased, contains one of the five
tokens blight, mildew, rust, fungus, spot (the source's narrative check
omits "mold"), and otherwise the healthy-plant template; the spec's
worked example for "Early Blight" at confidence 0.72 holds. -/
theorem c2_plant_narrative (label : String) (conf : ℚ) (dets : List Detection) :
    make_narrative "plant" label conf dets =
      (if narrative_disease_tokens.any (fun tok => strContains (lowerStr label) tok) then
        "This plant shows signs of " ++ label ++ ". Confidence " ++
          toString (pyRound (conf * 100)) ++
          "%. Consider isolating the affected area and applying appropriate treatment."
      else
        "This appears to be a healthy plant or foliage (" ++ label ++ "). Confidence " ++
          toString (pyRound (conf * 100)) ++ "%.") ∧
    make_narrative "plant" "Early Blight" (72/100) [] =
      "This plant shows signs of Early Blight. Confidence 72%. Consider isolating the affected area and applying appropriate treatment." :=
  ⟨rfl, by decide⟩

/-- Claim C2 counterexample: the label "Leaf Mold" contains the disease
token "mold" (so the claim demands the disease template), yet the source's
narrative check omits "mold" and produces the healthy-plant template. -/
theorem c2_mold_counterexample :
    strContains (lowerStr "Leaf Mold") "mold" = true ∧
    "mold" ∈ disease_tokens ∧
    make_narrative "plant" "Leaf Mold" (72/100) [] =
      "This appears to be a healthy plant or foliage (Leaf Mold). Confidence 72%." ∧
    make_narrative "plant" "Leaf Mold" (72/100) [] ≠
      "This plant shows signs of Leaf Mold. Confidence 72%. Consider isolating the affected area and applying appropriate treatment." := by
  exact ⟨by decide, by decide, by decide, by decide⟩

/-- Claim C3 (amended): severity is present iff the resolved domain is
plant; affectedArea is present iff the resolved domain is plant and
width*height is positive (both absent for every non-plant domain). -/
theorem c3_severity_affected_presence (w h : ℕ) (dets : List Detection)
    (oracle : ℕ → ClassificationResult) (ov : Option String) :
    ((classify w h dets oracle ov).classification.severity.isSome ↔
      resolvedDomain w h dets oracle ov = "plant") ∧
    ((classify w h dets oracle ov).classification.affectedArea.isSome ↔
      (resolvedDomain w h dets oracle ov = "plant" ∧ 0 < w * h)) := by
  have hcast : (0 < (w : ℤ) * (h : ℤ)) ↔ 0 < w * h := by
    rw [show ((w : ℤ) * (h : ℤ)) = ((w * h : ℕ) : ℤ) by push_cast; ring]
    exact Int.natCast_pos
  by_cases hdom : resolvedDomain w h dets oracle ov = "plant"
  · by_cases hwh : 0 < w * h
    · simp [classify, hdom, hwh, hcast.mpr hwh]
    · have hz : ¬ 0 < (w : ℤ) * (h : ℤ) := fun hh => hwh (hcast.mp hh)
      simp [classify, hdom, hwh, hz]
  · simp [classify, hdom]

/-- Claim C3 counterexample: a degenerate 0 by 0 image with no detections
resolves to domain plant (classifier label "leaf"), and the report carries
a severity but no affectedArea, so the claimed equivalence fails. -/
theorem c3_zero_area_counterexample :
    resolvedDomain 0 0 [] (mkOracle "leaf" (1/2)) none = "plant" ∧
    (classify 0 0 [] (mkOracle "leaf" (1/2)) none).classification.severity = some "low" ∧
    (classify 0 0 [] (mkOracle "leaf" (1/2)) none).classification.affectedArea = none := by
  exact ⟨by decide, by decide, by decide⟩

/-- Claim C4: diseaseDetected is true exactly when the resolved domain is
plant and the lowercased primary label contains one of the six disease
tokens; diseaseName is the primary label when a disease was detected or
the domain is not plant, and the literal "Healthy" otherwise. -/
theorem c4_disease_decision (w h : ℕ) (dets : List Detection)
    (oracle : ℕ → ClassificationResult) (ov : Option String) :
    (classify w h dets oracle ov).classification.diseaseDetected =
      (decide (resolvedDomain w h dets oracle ov = "plant") &&
        disease_tokens.any (fun tok =>
          strContains (lowerStr (primary_label w h dets oracle)) tok)) ∧
    (classify w h dets oracle ov).classification.diseaseName =
      (if (classify w h dets oracle ov).classification.diseaseDetected then
        primary_label w h dets oracle
      else if resolvedDomain w h dets oracle ov = "plant" then "Healthy"
      else primary_label w h dets oracle) := by
  by_cases hdom : resolvedDomain w h dets oracle ov = "plant" <;>
    simp [classify, hdom]

/-- Claim C5: for the plant domain, affectedArea is the rounded percentage
of summed clamped-region areas over the image area when that area is
positive and absent otherwise; overlapping regions are double-counted
(two overlapping 10 by 10 boxes in a 100 by 100 image give 2, the same as
two disjoint ones) and the result is not clamped to 100 (the same two
boxes in a 10 by 10 image give 200). -/
theorem c5_affected_area (w h : ℕ) (dets : List Detection)
    (oracle : ℕ → ClassificationResult) (ov : Option String) :
    (classify w h dets oracle ov).classification.affectedArea =
      (if resolvedDomain w h dets oracle ov = "plant" then
        if 0 < (w : ℤ) * (h : ℤ) then
          some (pyRound (((100 *
            ((regionBoxes w h dets).map
              (fun b => max 0 (b.x2 - b.x1) * max 0 (b.y2 - b.y1))).sum : ℤ) : ℚ) /
            (((w : ℤ) * (h : ℤ) : ℤ) : ℚ)))
        else none
      else none) ∧
    (classify 100 100 [d_a, d_b] (mkOracle "leaf" (1/2)) none).classification.affectedArea =
      some 2 ∧
    (classify 100 100 [d_a, d_a] (mkOracle "leaf" (1/2)) none).classification.affectedArea =
      some 2 ∧
    (classify 10 10 [d_a, d_a] (mkOracle "leaf" (1/2)) none).classification.affectedArea =
      some 200 :=
  ⟨rfl, by decide, by decide, by decide⟩

/-- Claim C6: for the plant domain, severity is "high" when the best
confidence is at least 0.8, "medium" when it is at least 0.6, and "low"
otherwise; confidence exactly 0.8 grades high, exactly 0.6 grades medium,
and 0.599 grades low. -/
theorem c6_severity_grading (w h : ℕ) (dets : List Detection)
    (oracle : ℕ → ClassificationResult) (ov : Option String) :
    (classify w h dets oracle ov).classification.severity =
      (if resolvedDomain w h dets oracle ov = "plant" then
        some (if 0.8 ≤ best_conf w h dets oracle then "high"
          else if 0.6 ≤ best_conf w h dets oracle then "medium" else "low")
      else none) ∧
    (classify 10 10 [] (mkOracle "leaf" (8/10)) none).classification.severity =
      some "high" ∧
    (classify 10 10 [] (mkOracle "leaf" (6/10)) none).classification.severity =
      some "medium" ∧
    (classify 10 10 [] (mkOracle "leaf" (599/1000)) none).classification.severity =
      some "low" :=
  ⟨rfl, by decide, by decide, by decide⟩

/-- Claim C7: the Domain Estimator is total over the three domains; any
detection whose lowercased label is in the livestock token set forces
livestock regardless of the classification label; with no livestock
detection, a detection whose lowercased label is in the plant token set
forces plant regardless of the classification label (detection-label
rules precede classification-label substring rules); and when no
detection rule and no substring rule matches, the result defaults to
plant. -/
theorem c7_domain_estimator (dets : List Detection) (lbl : String) :
    (estimate_domain dets lbl = "plant" ∨ estimate_domain dets lbl = "livestock" ∨
      estimate_domain dets lbl = "fish") ∧
    ((dets.any fun d => animal_tokens.contains (lowerStr d.label)) = true →
      estimate_domain dets lbl = "livestock") ∧
    ((dets.any fun d => animal_tokens.contains (lowerStr d.label)) = false →
      (dets.any fun d => plant_tokens.contains (lowerStr d.label)) = true →
      estimate_domain dets lbl = "plant") ∧
    ((dets.any fun d => animal_tokens.contains (lowerStr d.label)) = false →
      (dets.any fun d => plant_tokens.contains (lowerStr d.label)) = false →
      (fish_label_tokens.any fun tok => strContains (lowerStr lbl) tok) = false →
      (plant_label_tokens.any fun tok => strContains (lowerStr lbl) tok) = false →
      (livestock_label_tokens.any fun tok => strContains (lowerStr lbl) tok) = false →
      estimate_domain dets lbl = "plant") := by
  refine ⟨?_, ?_, ?_, ?_⟩
  · simp only [estimate_domain]
    split_ifs <;> simp
  · intro hany
    simp only [estimate_domain]
    have hm : ((dets.map fun d => lowerStr d.label).any fun l =>
        animal_tokens.contains l) = true := by
      simpa [List.any_map, Function.comp] using hany
    exact if_pos hm
  · intro h2 h3
    simp only [estimate_domain]
    have ha2 : ((dets.map fun d => lowerStr d.label).any fun l =>
        animal_tokens.contains l) = false := by
      simpa [List.any_map, Function.comp] using h2
    have hp3 : ((dets.map fun d => lowerStr d.label).any fun l =>
        plant_tokens.contains l) = true := by
      simpa [List.any_map, Function.comp] using h3
    rw [if_neg (by simp only [ha2]; exact Bool.false_ne_true), if_pos hp3]
  · intro h2 h3 h4 h5 h6
    simp only [estimate_domain]
    have ha2 : ((dets.map fun d => lowerStr d.label).any fun l =>
        animal_tokens.contains l) = false := by
      simpa [List.any_map, Function.comp] using h2
    have hp3 : ((dets.map fun d => lowerStr d.label).any fun l =>
        plant_tokens.contains l) = false := by
      simpa [List.any_map, Function.comp] using h3
    rw [if_neg (by simp only [ha2]; exact Bool.false_ne_true),
      if_neg (by simp only [hp3]; exact Bool.false_ne_true),
      if_neg (by simp only [h4]; exact Bool.false_ne_true),
      if_neg (by simp only [h5]; exact Bool.false_ne_true),
      if_neg (by simp only [h6]; exact Bool.false_ne_true)]

/-- Claim C7 witness: a "cow" detection forces livestock even though the
classification label "green leaf" contains the plant token "leaf"; with
no livestock detection, a "potted plant" detection forces plant even
though the classification label "goldfish" is a fish substring token; a
label matching no rule ("sky", no detections) defaults to plant; and the
estimator's output is one of the three domains. -/
theorem c7_domain_estimator_witness :
    estimate_domain [d_cow] "green leaf" = "livestock" ∧
    estimate_domain [d_plant] "goldfish" = "plant" ∧
    estimate_domain [] "sky" = "plant" ∧
    (estimate_domain [d_cow] "green leaf" = "plant" ∨
      estimate_domain [d_cow] "green leaf" = "livestock" ∨
      estimate_domain [d_cow] "green leaf" = "fish") :=
  ⟨(c7_domain_estimator [d_cow] "green leaf").2.1 (by decide),
   (c7_domain_estimator [d_plant] "goldfish").2.2.1 (by decide) (by decide),
   (c7_domain_estimator [] "sky").2.2.2 (by decide) (by decide) (by decide)
     (by decide) (by decide),
   (c7_domain_estimator [d_cow] "green leaf").1⟩

/-- Claim C9: with zero detections the Region Extractor emits exactly one
region, the whole image, and the report's regions sequence has length 1. -/
theorem c9_empty_detections_fallback (w h : ℕ)
    (oracle : ℕ → ClassificationResult) (ov : Option String) :
    regionBoxes w h [] = [{ x1 := 0, y1 := 0, x2 := (w : ℤ), y2 := (h : ℤ) }] ∧
    (classify w h [] oracle ov).regions.length = 1 :=
  ⟨rfl, rfl⟩

/-- Claim C1 (amended): every region box satisfies 0 ≤ x1, 0 ≤ y1,
x2 ≤ width and y2 ≤ height unconditionally; the spec's full chains
0 ≤ x1 ≤ x2 ≤ width and 0 ≤ y1 ≤ y2 ≤ height hold additionally whenever
each detection's truncated raw box is ordered and meets the image bounds
on both axes, but not for arbitrary out-of-bounds boxes. -/
theorem c1_region_box_bounds (w h : ℕ) (dets : List Detection) (b : Box)
    (hb : b ∈ regionBoxes w h dets) :
    BoxLoose w h b ∧ ((∀ d ∈ dets, RawBoxInImage w h d.box) → BoxWithin w h b) := by
  cases dets with
  | nil =>
    have hbox : b = { x1 := 0, y1 := 0, x2 := (w : ℤ), y2 := (h : ℤ) } := by
      simpa [regionBoxes] using hb
    subst hbox
    refine ⟨⟨le_refl 0, le_refl 0, le_refl _, le_refl _⟩, ?_⟩
    intro _
    exact ⟨le_refl 0, Int.natCast_nonneg w, le_refl _,
      le_refl 0, Int.natCast_nonneg h, le_refl _⟩
  | cons d0 ds =>
    have hmap : b ∈ (d0 :: ds).map (fun d => clampBox w h d.box) := hb
    rcases List.mem_map.mp hmap with ⟨d, hd, rfl⟩
    constructor
    · exact ⟨le_max_left _ _, le_max_left _ _, min_le_left _ _, min_le_left _ _⟩
    · intro hall
      obtain ⟨hx12, hx2, hx1w, hy12, hy2, hy1h⟩ := hall d hd
      refine ⟨le_max_left _ _, ?_, min_le_left _ _, le_max_left _ _, ?_, min_le_left _ _⟩
      · exact max_le (le_min (Int.natCast_nonneg w) hx2) (le_min hx1w hx12)
      · exact max_le (le_min (Int.natCast_nonneg h) hy2) (le_min hy1h hy12)

/-- Claim C1 witness: the in-bounds detection box (5,5,50,50) in a
100 by 100 image is clamped to itself and satisfies both the loose and the
full ordering bounds. -/
theorem c1_region_box_bounds_witness :
    BoxLoose 100 100 (clampBox 100 100 d_in.box) ∧
    BoxWithin 100 100 (clampBox 100 100 d_in.box) :=
  ⟨(c1_region_box_bounds 100 100 [d_in] (clampBox 100 100 d_in.box) (by decide)).1,
   (c1_region_box_bounds 100 100 [d_in] (clampBox 100 100 d_in.box) (by decide)).2
     (by decide)⟩

/-- Claim C1 counterexample: the detection box (150,150,200,200) lies
entirely outside a 100 by 100 image; the Region Extractor clamps it to
(150,150,100,100), whose x1 exceeds both x2 and the width, refuting
0 ≤ x1 ≤ x2 ≤ width for arbitrary input boxes. -/
theorem c1_box_order_counterexample :
    (regionBoxes 100 100 [d_out]).getD 0 default =
      { x1 := 150, y1 := 150, x2 := 100, y2 := 100 } ∧
    ¬ BoxWithin 100 100 ((regionBoxes 100 100 [d_out]).getD 0 default) :=
  ⟨by decide, by decide⟩

/-- Claim C8: assuming the Classification Collaborator's contract that
confidences are nonnegative, the best-region selection of `classify`
returns an in-range index whose confidence is maximal among all regions,
and every earlier region has strictly smaller confidence — i.e. the
selected index is the least index attaining the maximum. -/
theorem c8_best_region_selection (w h : ℕ) (dets : List Detection)
    (oracle : ℕ → ClassificationResult)
    (hnn : ∀ i, 0 ≤ (oracle i).confidence) :
    best_idx w h dets oracle < (confidences w h dets oracle).length ∧
    (∀ j, j < (confidences w h dets oracle).length →
      (confidences w h dets oracle).getD j 0 ≤
        (confidences w h dets oracle).getD (best_idx w h dets oracle) 0) ∧
    (∀ j, j < best_idx w h dets oracle →
      (confidences w h dets oracle).getD j 0 <
        (confidences w h dets oracle).getD (best_idx w h dets oracle) 0) := by
  obtain ⟨h1, h2, h3, h4⟩ := bestPair_spec (confidences w h dets oracle)
    (confidences_ne_nil w h dets oracle) (confidences_nonneg w h dets oracle hnn)
  refine ⟨h1, ?_, ?_⟩
  · intro j hj
    rw [show (confidences w h dets oracle).getD (best_idx w h dets oracle) 0 =
        (bestPair (confidences w h dets oracle)).2 from h2]
    exact h3 j hj
  · intro j hj
    rw [show (confidences w h dets oracle).getD (best_idx w h dets oracle) 0 =
        (bestPair (confidences w h dets oracle)).2 from h2]
    exact h4 j hj

/-- Claim C8 witness: for region confidences 0.3, 0.9, 0.9 the selected
index is 1, the first occurrence of the maximum, and the general selection
property holds at this input. -/
theorem c8_best_region_selection_witness :
    best_idx 100 100 [d_a, d_b, d_b] oracle399 = 1 ∧
    (best_idx 100 100 [d_a, d_b, d_b] oracle399 <
      (confidences 100 100 [d_a, d_b, d_b] oracle399).length ∧
    (∀ j, j < (confidences 100 100 [d_a, d_b, d_b] oracle399).length →
      (confidences 100 100 [d_a, d_b, d_b] oracle399).getD j 0 ≤
        (confidences 100 100 [d_a, d_b, d_b] oracle399).getD
          (best_idx 100 100 [d_a, d_b, d_b] oracle399) 0) ∧
    (∀ j, j < best_idx 100 100 [d_a, d_b, d_b] oracle399 →
      (confidences 100 100 [d_a, d_b, d_b] oracle399).getD j 0 <
        (confidences 100 100 [d_a, d_b, d_b] oracle399).getD
          (best_idx 100 100 [d_a, d_b, d_b] oracle399) 0)) :=
  ⟨by decide,
   c8_best_region_selection 100 100 [d_a, d_b, d_b] oracle399 (by
     intro i
     by_cases hi : i = 0 <;> simp [oracle399, hi] <;> norm_num)⟩

/-- Claim C10: an empty-string domain override falls through to the
Domain Estimator exactly as a missing override does, while a non-empty
override outside the three known domains (such as "Plant") is used
verbatim and produces a report with severity and affectedArea absent,
diseaseDetected false, diseaseName the primary label, empty
recommendations, and the fallback narrative. -/
theorem c10_override_fallthrough (w h : ℕ) (dets : List Detection)
    (oracle : ℕ → ClassificationResult) (s : String)
    (hs : s ≠ "") (hp : s ≠ "plant") (hl : s ≠ "livestock") (hf : s ≠ "fish") :
    classify w h dets oracle (some "") = classify w h dets oracle none ∧
    (classify w h dets oracle (some s)).classification.severity = none ∧
    (classify w h dets oracle (some s)).classification.affectedArea = none ∧
    (classify w h dets oracle (some s)).classification.diseaseDetected = false ∧
    (classify w h dets oracle (some s)).classification.diseaseName =
      primary_label w h dets oracle ∧
    (classify w h dets oracle (some s)).classification.recommendations = [] ∧
    (classify w h dets oracle (some s)).report =
      "Detected subject classified as " ++ primary_label w h dets oracle ++ " with " ++
        toString (pyRound (best_conf w h dets oracle * 100)) ++ "% confidence." := by
  have hdom : resolvedDomain w h dets oracle (some s) = s := by
    simp [resolvedDomain, hs]
  refine ⟨rfl, ?_, ?_, ?_, ?_, ?_, ?_⟩ <;>
    simp [classify, hdom, hp, hl, hf, make_narrative]

/-- Claim C10 witness: the override "Plant" (capitalised, hence not one
of the three known domains) at a concrete input yields the degenerate
report, and the empty-string override agrees with no override. -/
theorem c10_override_fallthrough_witness :
    classify 10 10 [] (mkOracle "leaf" (1/2)) (some "") =
      classify 10 10 [] (mkOracle "leaf" (1/2)) none ∧
    (classify 10 10 [] (mkOracle "leaf" (1/2)) (some "Plant")).classification.severity =
      none ∧
    (classify 10 10 [] (mkOracle "leaf" (1/2)) (some "Plant")).classification.affectedArea =
      none ∧
    (classify 10 10 [] (mkOracle "leaf" (1/2)) (some "Plant")).classification.diseaseDetected =
      false ∧
    (classify 10 10 [] (mkOracle "leaf" (1/2)) (some "Plant")).classification.diseaseName =
      primary_label 10 10 [] (mkOracle "leaf" (1/2)) ∧
    (classify 10 10 [] (mkOracle "leaf" (1/2)) (some "Plant")).classification.recommendations =
      [] ∧
    (classify 10 10 [] (mkOracle "leaf" (1/2)) (some "Plant")).report =
      "Detected subject classified as " ++ primary_label 10 10 [] (mkOracle "leaf" (1/2)) ++
        " with " ++ toString (pyRound (best_conf 10 10 [] (mkOracle "leaf" (1/2)) * 100)) ++
        "% confidence." :=
  c10_override_fallthrough 10 10 [] (mkOracle "leaf" (1/2)) "Plant"
    (by decide) (by decide) (by decide) (by decide)

end AgriClip
